import Mathlib

/-!
Verification of the EGP-Dream realtime session client
(`frontend/src/App.tsx`, second revision of the component).

The client is a single React component.  We embed the parts of it that
carry protocol and state-machine content:

* a model of JavaScript runtime values (`JSVal`), of property access
  (`getProp`, which throws a TypeError on `null`/`undefined`), of
  truthiness and of the `||` operator, faithful to the semantics the
  dispatcher relies on;
* `SessionState`, the React state relevant to the session
  (`wsStatus`, `imageStatus`, `liveImage`, `livePrompt`, `status`,
  `history`, `viewIndex`, `metrics`, `cost`, `debugText`);
* `onmessage`, the WebSocket dispatcher (App.tsx lines 342-360):
  `JSON.parse` of a malformed payload throws, which we model by the
  inbound event being `none`; a parsed payload is a `JSVal`.  The
  dispatcher has no try/catch, so a thrown error propagates; every
  throwing path in the source occurs before any state setter runs, so
  the pre-state is returned next to the error;
* `handleKeyDown`, the ArrowLeft/ArrowRight history navigation
  (lines 367-386);
* the view reconciler `isLive`/`displayImage`/`displayPrompt`
  (lines 329-331) and the History-Mode position label (line 496);
* `step`/`run`, the serialized event loop: transport messages,
  keyboard navigation, Question-Log clicks, socket open/error/close;
* the audio-capture pipeline (`CaptureState`, lines 446-478), whose
  `onaudioprocess` closure captures the render-scope `isRecording`
  value at installation time;
* the persisted configuration (`Config`, `Storage`, lines 302-309 and
  436-442): `localStorage` reads at component initialization and the
  writes performed by `handleSaveSettings`.
-/

/-- JavaScript runtime values, as far as the dispatcher observes them.
Numbers are modelled as integers: no claim computes with numeric
payloads.  `JSON.parse` never yields `undefined`, but property access does. -/
inductive JSVal where
  | undefined : JSVal
  | null : JSVal
  | bool (b : Bool) : JSVal
  | num (n : Int) : JSVal
  | str (s : String) : JSVal
  | arr (elems : List JSVal) : JSVal
  | obj (fields : List (String × JSVal)) : JSVal

/-- JavaScript truthiness (`undefined`, `null`, `false`, `0`, `""` are
falsy; arrays and objects are always truthy). -/
def truthy : JSVal → Bool
  | .undefined => false
  | .null => false
  | .bool b => b
  | .num n => n != 0
  | .str s => s != ""
  | .arr _ => true
  | .obj _ => true

/-- The JavaScript `a || b` operator. -/
def jsOr (a b : JSVal) : JSVal := if truthy a then a else b

/-- Errors the dispatcher can throw: a `JSON.parse` failure on malformed
input, or a TypeError from property access on `null`/`undefined`. -/
inductive JsErr where
  | parseFailure : JsErr
  | typeError : JsErr
deriving DecidableEq

/-- Property access `v[k]`: throws a TypeError on `null`/`undefined`,
looks the key up on an object (absent keys give `undefined`), and gives
`undefined` on other primitives and arrays. -/
def getProp : JSVal → String → Except JsErr JSVal
  | .undefined, _ => .error .typeError
  | .null, _ => .error .typeError
  | .obj fields, k => .ok ((fields.lookup k).getD .undefined)
  | .bool _, _ => .ok .undefined
  | .num _, _ => .ok .undefined
  | .str _, _ => .ok .undefined
  | .arr _, _ => .ok .undefined

/-- Strict equality `v === "lit"` against a string literal. -/
def strEq : JSVal → String → Bool
  | .str s, t => s == t
  | _, _ => false

/-- WebSocket status, `wsStatus` state (line 298). -/
inductive WsStatus where
  | connecting : WsStatus
  | open : WsStatus
  | closed : WsStatus
deriving DecidableEq

/-- Image-generation status, `imageStatus` state (line 299). -/
inductive ImageStatus where
  | idle : ImageStatus
  | generating : ImageStatus
deriving DecidableEq

/-- The React session state the protocol and navigation logic mutate
(lines 296-321).  `viewIndex = -1` means "Live/Latest"; `history`
elements are the raw `data.item` values appended by the dispatcher. -/
structure SessionState where
  wsStatus : WsStatus
  imageStatus : ImageStatus
  liveImage : JSVal
  livePrompt : JSVal
  status : JSVal
  history : List JSVal
  viewIndex : Int
  metrics : JSVal
  cost : JSVal
  debugText : List JSVal

/-- The initial React state (lines 296-321). -/
def initialState : SessionState :=
  { wsStatus := .connecting
    imageStatus := .idle
    liveImage := .null
    livePrompt := .str ""
    status := .str ""
    history := []
    viewIndex := -1
    metrics := .obj []
    cost := .obj [("total", .num 0), ("breakdown", .obj [])]
    debugText := [] }

/-- The fallback cost snapshot `{ total: 0, breakdown: {} }`. -/
def defaultCost : JSVal := .obj [("total", .num 0), ("breakdown", .obj [])]

/-- `prev.slice(-10)`: the last (at most) ten elements. -/
def sliceLastTen (l : List JSVal) : List JSVal := l.drop (l.length - 10)

/-- The body of `ws.onmessage` after a successful `JSON.parse`
(lines 344-359).  In every branch the property accesses that can throw
happen before any state setter runs, so on an error the state is the
unchanged input state; the error itself propagates (there is no
try/catch in the source). -/
def dispatchMsg (s : SessionState) (data : JSVal) : SessionState × Option JsErr :=
  match getProp data "type" with
  | .error e => (s, some e)
  | .ok ty =>
    if strEq ty "image" then
      match getProp data "url", getProp data "prompt" with
      | .ok url, .ok prompt =>
        ({ s with liveImage := url, livePrompt := prompt, imageStatus := .idle }, none)
      | .error e, _ => (s, some e)
      | _, .error e => (s, some e)
    else if strEq ty "history_update" then
      match getProp data "item" with
      | .ok item => ({ s with history := s.history ++ [item] }, none)
      | .error e => (s, some e)
    else if strEq ty "status" then
      match getProp data "message" with
      | .ok msg => ({ s with status := msg }, none)
      | .error e => (s, some e)
    else if strEq ty "debug_text" then
      match getProp data "text" with
      | .ok t =>
        ({ s with debugText := sliceLastTen s.debugText ++ [jsOr t (.str "")] }, none)
      | .error e => (s, some e)
    else if strEq ty "metrics" then
      match getProp data "data" with
      | .error e => (s, some e)
      | .ok d =>
        match getProp d "latency" with
        | .error e => (s, some e)
        | .ok lat =>
          match getProp d "cost" with
          | .error e => (s, some e)
          | .ok c =>
            ({ s with metrics := jsOr lat (.obj []), cost := jsOr c defaultCost }, none)
    else (s, none)

/-- `ws.onmessage` (lines 342-360).  The raw transport payload is
`none` when `JSON.parse` throws (malformed JSON), `some data` when it
yields the value `data`.  The parse failure propagates before any
handler code runs. -/
def onmessage (s : SessionState) (ev : Option JSVal) : SessionState × Option JsErr :=
  match ev with
  | none => (s, some .parseFailure)
  | some data => dispatchMsg s data

/-- Keyboard events the navigation handler distinguishes. -/
inductive Key where
  | arrowLeft : Key
  | arrowRight : Key
  | other : Key

/-- `handleKeyDown` (lines 368-383): with an empty history both arrows
are ignored; ArrowLeft jumps from Live (`-1`) to the last entry and
otherwise decrements clamped at 0; ArrowRight stays Live from Live,
returns to Live from at-or-past the last index, and otherwise
increments. -/
def handleKeyDown (s : SessionState) (k : Key) : SessionState :=
  if s.history.length = 0 then s
  else
    match k with
    | .arrowLeft =>
      { s with viewIndex :=
          if s.viewIndex = -1 then (s.history.length : Int) - 1
          else max 0 (s.viewIndex - 1) }
    | .arrowRight =>
      { s with viewIndex :=
          if s.viewIndex = -1 then -1
          else if (s.history.length : Int) - 1 ≤ s.viewIndex then -1
          else s.viewIndex + 1 }
    | .other => s

/-- `isLive` (line 329): `viewIndex === -1 || viewIndex >= history.length`. -/
def SessionState.isLive (s : SessionState) : Bool :=
  s.viewIndex == -1 || decide ((s.history.length : Int) ≤ s.viewIndex)

/-- Array indexing `l[i]` with a JavaScript result: out-of-range and
negative indices give `undefined`. -/
def jsIndexGet (l : List JSVal) (i : Int) : JSVal :=
  if 0 ≤ i then l.getD i.toNat JSVal.undefined else JSVal.undefined

/-- Optional chaining `v?.k`: `undefined` on `null`/`undefined`,
ordinary property access otherwise. -/
def optChainGet (v : JSVal) (k : String) : JSVal :=
  match v with
  | .undefined => .undefined
  | .null => .undefined
  | w => match getProp w k with
         | .ok x => x
         | .error _ => .undefined

/-- `displayImage` (line 330). -/
def SessionState.displayImage (s : SessionState) : JSVal :=
  if s.isLive then s.liveImage else optChainGet (jsIndexGet s.history s.viewIndex) "url"

/-- `displayPrompt` (line 331). -/
def SessionState.displayPrompt (s : SessionState) : JSVal :=
  if s.isLive then s.livePrompt else optChainGet (jsIndexGet s.history s.viewIndex) "question"

/-- The History-Mode position label `(viewIndex + 1) / history.length`
(line 496), rendered only when not live. -/
def SessionState.positionLabel (s : SessionState) : Int × Nat :=
  (s.viewIndex + 1, s.history.length)

/-- The external triggers the event loop serializes: an inbound
transport payload (with `none` for malformed JSON), a keyboard
navigation event, a click on the i-th rendered Question-Log entry
(line 536; the list renders one item per history entry, so a click
carries an index below `history.length`), and socket lifecycle
callbacks (lines 335-341, 361). -/
inductive Event where
  | msg (ev : Option JSVal) : Event
  | key (k : Key) : Event
  | clickEntry (i : Nat) : Event
  | sockOpen : Event
  | sockError : Event
  | sockClose : Event

/-- One step of the serialized event loop. -/
def step (s : SessionState) (e : Event) : SessionState :=
  match e with
  | .msg ev => (onmessage s ev).1
  | .key k => handleKeyDown s k
  | .clickEntry i =>
    if i < s.history.length then { s with viewIndex := (i : Int) } else s
  | .sockOpen => { s with wsStatus := .open, status := .str "Connected" }
  | .sockError => { s with wsStatus := .closed }
  | .sockClose => { s with wsStatus := .closed, status := .str "Disconnected" }

/-- Running the event loop over a sequence of triggers. -/
def run (s : SessionState) (evs : List Event) : SessionState :=
  evs.foldl step s

/-!  Audio capture pipeline (lines 446-478).

`startRecording` installs `processor.onaudioprocess` and only then
calls `setIsRecording(true)`.  The installed closure reads the
`isRecording` binding of the render in which `startRecording` was
created, so the guard `if (!isRecording) return;` tests the value that
binding had at installation time — it is never re-pointed at later
renders.  We record that captured value in the state. -/

/-- The capture-pipeline state: the React `isRecording` flag, the
installed `onaudioprocess` closure (carrying the `isRecording` value it
captured), and the audio frames handed to `ws.send`. -/
structure CaptureState where
  isRecording : Bool
  handlerCaptured : Option Bool
  sent : List Nat

/-- The capture state before any interaction. -/
def capture0 : CaptureState :=
  { isRecording := false, handlerCaptured := none, sent := [] }

/-- `startRecording`, success path (lines 446-470): the
`onaudioprocess` closure is installed capturing the current render
value of `isRecording`; afterwards `setIsRecording(true)` runs. -/
def startRecording (s : CaptureState) : CaptureState :=
  { s with handlerCaptured := some s.isRecording, isRecording := true }

/-- `stopRecording` (lines 472-478): the processor is disconnected and
dropped and `setIsRecording(false)` runs. -/
def stopRecording (s : CaptureState) : CaptureState :=
  { s with handlerCaptured := none, isRecording := false }

/-- `toggleRecording` (line 480). -/
def toggleRecording (s : CaptureState) : CaptureState :=
  if s.isRecording then stopRecording s else startRecording s

/-- A device callback delivering a frame (lines 456-464).  The guard
`if (!isRecording) return;` reads the value captured by the closure;
when it passes and the socket is open, the frame is serialized and
handed to `ws.send`. -/
def onaudioprocess (s : CaptureState) (frame : Nat) (wsOpen : Bool) : CaptureState :=
  match s.handlerCaptured with
  | none => s
  | some captured =>
    if captured = false then s
    else if wsOpen then { s with sent := s.sent ++ [frame] } else s

/-!  Persisted configuration (lines 302-309 and 436-442). -/

/-- `localStorage`, an association of string keys to string values. -/
abbrev Storage : Type := List (String × String)

/-- `localStorage.getItem`. -/
def storeGet : Storage → String → Option String
  | [], _ => none
  | (k, v) :: rest, q => if k = q then some v else storeGet rest q

/-- `localStorage.setItem`: replaces the value under the key. -/
def setItem (st : Storage) (k v : String) : Storage :=
  (k, v) :: st.filter (fun p => decide (p.1 ≠ k))

/-- The configuration state of the component (lines 302-309). -/
structure Config where
  geminiKey : String
  openRouterKey : String
  openaiKey : String
  audioModel : String
  questionModel : String
  imageModel : String
  minDisplayTime : Int
  sessionName : String
deriving DecidableEq

/-- Component initialization of the configuration state
(lines 302-309): the three credential strings are read from
`localStorage` with `''` fallbacks; the model selections, the
min-display-time and the session label are literals (the label embeds
the current locale date string, passed here as `d`). -/
def initConfig (st : Storage) (d : String) : Config :=
  { geminiKey := (storeGet st "gemini_api_key").getD ""
    openRouterKey := (storeGet st "openrouter_api_key").getD ""
    openaiKey := (storeGet st "openai_api_key").getD ""
    audioModel := "local_whisper"
    questionModel := "gemini-2.5-flash"
    imageModel := "google/gemini-2.5-flash-image"
    minDisplayTime := 6
    sessionName := "Session_" ++ d }

/-- `handleSaveSettings` (lines 436-442): the effect on durable
storage — exactly three `localStorage.setItem` calls, one per
credential string.  (The remaining statements send the config over the
socket and close the settings panel; they do not touch storage.) -/
def handleSaveSettings (cfg : Config) (st : Storage) : Storage :=
  setItem (setItem (setItem st "gemini_api_key" cfg.geminiKey)
      "openrouter_api_key" cfg.openRouterKey)
    "openai_api_key" cfg.openaiKey

/-!  Wire-message constructors used to state the claims. -/

/-- A well-formed `history_update` payload carrying `item`. -/
def historyMsg (item : JSVal) : Option JSVal :=
  some (.obj [("type", .str "history_update"), ("item", item)])

/-- A well-formed `debug_text` payload carrying `text`. -/
def debugMsg (t : String) : Option JSVal :=
  some (.obj [("type", .str "debug_text"), ("text", .str t)])

/-- A well-formed `metrics` payload carrying `data.latency` and `data.cost`. -/
def metricsMsg (lat c : JSVal) : Option JSVal :=
  some (.obj [("type", .str "metrics"),
              ("data", .obj [("latency", lat), ("cost", c)])])

/-- A sequence of `debug_text` transport events. -/
def debugMsgs (ts : List String) : List Event :=
  ts.map (fun t => Event.msg (debugMsg t))

/-- The cursor well-formedness invariant: the view cursor is the Live
sentinel `-1` or a valid index into `history`. -/
def cursorOK (s : SessionState) : Prop :=
  s.viewIndex = -1 ∨ (0 ≤ s.viewIndex ∧ s.viewIndex < (s.history.length : Int))

/-- A well-formed history entry used to instantiate the hypotheses of
the navigation and view theorems. -/
def sampleEntry : JSVal :=
  .obj [("question", .str "q1"), ("url", .str "u1"), ("timestamp", .str "t1")]

/-- A state with one history entry and the cursor on Live. -/
def sampleLive : SessionState :=
  { initialState with history := [sampleEntry] }

/-- A state with one history entry and the cursor on index 0. -/
def sampleNav : SessionState :=
  { initialState with history := [sampleEntry], viewIndex := 0 }

/-- A latency map payload used to instantiate the metrics theorem. -/
def sampleLatency : JSVal := .obj [("Phase A:local_whisper", .num 1)]

/-- A cost payload used to instantiate the metrics theorem. -/
def sampleCost : JSVal := .obj [("total", .num 2), ("breakdown", .obj [])]

/-- A state holding a prior metrics snapshot with a key that appears in
no later message. -/
def sampleMetricsState : SessionState :=
  { initialState with metrics := .obj [("old_phase", .num 9)] }

/-- A configuration whose non-credential fields carry markers that
could be recognized in storage if they were written there. -/
def cfgSample : Config :=
  { geminiKey := "gk", openRouterKey := "rk", openaiKey := "oak"
    audioModel := "chosen_audio_model", questionModel := "chosen_question_model"
    imageModel := "chosen_image_model", minDisplayTime := 42
    sessionName := "MyLabel" }

/-!  Helper lemmas shared by the claim theorems. -/

theorem dispatchMsg_viewIndex (s : SessionState) (data : JSVal) :
    (dispatchMsg s data).1.viewIndex = s.viewIndex := by
  unfold dispatchMsg
  repeat' split
  all_goals rfl

theorem dispatchMsg_wsStatus (s : SessionState) (data : JSVal) :
    (dispatchMsg s data).1.wsStatus = s.wsStatus := by
  unfold dispatchMsg
  repeat' split
  all_goals rfl

theorem dispatchMsg_history (s : SessionState) (data : JSVal) :
    ∃ tail, (dispatchMsg s data).1.history = s.history ++ tail := by
  unfold dispatchMsg
  repeat' split
  all_goals first
    | exact ⟨_, rfl⟩
    | (refine ⟨[], ?_⟩; simp)

theorem dispatchMsg_debugLen (s : SessionState) (data : JSVal) :
    (dispatchMsg s data).1.debugText.length ≤ max s.debugText.length 11 := by
  unfold dispatchMsg
  repeat' split
  all_goals simp [sliceLastTen]
  omega

theorem handleKeyDown_history (s : SessionState) (k : Key) :
    (handleKeyDown s k).history = s.history := by
  unfold handleKeyDown
  repeat' split
  all_goals rfl

theorem handleKeyDown_debugText (s : SessionState) (k : Key) :
    (handleKeyDown s k).debugText = s.debugText := by
  unfold handleKeyDown
  repeat' split
  all_goals rfl

theorem step_history_extends (s : SessionState) (e : Event) :
    ∃ tail, (step s e).history = s.history ++ tail := by
  cases e with
  | msg ev =>
    cases ev with
    | none => exact ⟨[], by simp [step, onmessage]⟩
    | some data => exact dispatchMsg_history s data
  | key k => exact ⟨[], by simp [step, handleKeyDown_history]⟩
  | clickEntry i =>
    refine ⟨[], ?_⟩
    simp only [step]
    split
    all_goals simp
  | sockOpen => exact ⟨[], by simp [step]⟩
  | sockError => exact ⟨[], by simp [step]⟩
  | sockClose => exact ⟨[], by simp [step]⟩

theorem step_debugLen (s : SessionState) (e : Event) :
    (step s e).debugText.length ≤ max s.debugText.length 11 := by
  cases e with
  | msg ev =>
    cases ev with
    | none => simp [step, onmessage]
    | some data => exact dispatchMsg_debugLen s data
  | key k => simp [step, handleKeyDown_debugText]
  | clickEntry i =>
    simp only [step]
    split
    all_goals simp
  | sockOpen => simp [step]
  | sockError => simp [step]
  | sockClose => simp [step]

theorem run_debugLen (s : SessionState) (evs : List Event) :
    (run s evs).debugText.length ≤ max s.debugText.length 11 := by
  induction evs generalizing s with
  | nil => simp [run]
  | cons e es ih =>
    have h1 := step_debugLen s e
    have h2 := ih (step s e)
    have : run s (e :: es) = run (step s e) es := rfl
    rw [this]
    omega

theorem step_historyMsg (s : SessionState) (item : JSVal) :
    step s (Event.msg (historyMsg item)) = { s with history := s.history ++ [item] } :=
  rfl

theorem run_historyMsgs (items : List JSVal) (s : SessionState) :
    (run s (items.map fun it => Event.msg (historyMsg it))).history
      = s.history ++ items := by
  induction items generalizing s with
  | nil => simp [run]
  | cons it its ih =>
    have : run s ((it :: its).map fun x => Event.msg (historyMsg x))
        = run { s with history := s.history ++ [it] }
            (its.map fun x => Event.msg (historyMsg x)) := rfl
    rw [this, ih]
    simp

/-!  The claims. -/

/-- C1 (counterexample).  The claim says a malformed transport payload
is dropped with no exception escaping the dispatcher and a protocol
error reported.  On the concrete malformed input (`JSON.parse` throws,
modelled by the `none` event) the dispatcher propagates the parse
exception — there is no try/catch and no error-channel report in
`ws.onmessage` — while leaving the state untouched. -/
theorem malformed_json_counterexample :
    (onmessage initialState none).2 = some JsErr.parseFailure ∧
    (onmessage initialState none).1 = initialState :=
  ⟨rfl, rfl⟩

/-- C1 (amended).  Malformed JSON makes `JSON.parse` throw and the
exception escapes `ws.onmessage` unreported; since the throw precedes
every state setter, the whole session state — connection status
included — is unchanged.  A recognized type with a missing required
field is not uniformly dropped either: `metrics` without `data` throws
a TypeError (again escaping with the state unchanged), while
`history_update` without `item` silently appends an `undefined`
history entry. -/
theorem malformed_json_amended (s : SessionState) :
    onmessage s none = (s, some JsErr.parseFailure) ∧
    onmessage s (some (JSVal.obj [("type", JSVal.str "metrics")]))
      = (s, some JsErr.typeError) ∧
    (onmessage s (some (JSVal.obj [("type", JSVal.str "history_update")]))).1
      = { s with history := s.history ++ [JSVal.undefined] } ∧
    (onmessage s none).1.wsStatus = s.wsStatus :=
  ⟨rfl, rfl, rfl, rfl⟩

/-- C2.  The claim says every frame produced while capture is active is
handed to the transport.  In the source the `onaudioprocess` closure
captures the render-scope `isRecording`, which is `false` in the render
whose click handler calls `startRecording`; the guard therefore rejects
every frame: after toggling capture on from the initial state the
pipeline is active (`isRecording = true`) yet a device frame arriving
with the socket open is discarded and nothing is ever handed to
`ws.send`.  (The other half of the claim holds: after `stopRecording`
an in-flight frame is discarded.) -/
theorem audio_frames_never_sent :
    (toggleRecording capture0).isRecording = true ∧
    (toggleRecording capture0).handlerCaptured = some false ∧
    (onaudioprocess (toggleRecording capture0) 0 true).sent = [] ∧
    (∀ (s : CaptureState) (f : Nat) (w : Bool),
        onaudioprocess (stopRecording s) f w = stopRecording s) :=
  ⟨rfl, rfl, rfl, fun _ _ _ => rfl⟩

/-- C3 (counterexample).  The claim says the debug buffer never holds
more than 10 entries and that after exactly 11 `debug_text` messages
the first text is absent.  The handler is
`setDebugText(prev => [...prev.slice(-10), data.text || ''])`, which
keeps the last ten entries and then appends: after 11 messages the
buffer holds all 11 texts — 11 entries, the first one still present. -/
theorem debug_buffer_counterexample :
    (run initialState (debugMsgs
        ["m1", "m2", "m3", "m4", "m5", "m6", "m7", "m8", "m9", "m10", "m11"])).debugText
      = [JSVal.str "m1", JSVal.str "m2", JSVal.str "m3", JSVal.str "m4",
         JSVal.str "m5", JSVal.str "m6", JSVal.str "m7", JSVal.str "m8",
         JSVal.str "m9", JSVal.str "m10", JSVal.str "m11"] ∧
    (run initialState (debugMsgs
        ["m1", "m2", "m3", "m4", "m5", "m6", "m7", "m8", "m9", "m10", "m11"])).debugText.length
      = 11 :=
  ⟨rfl, rfl⟩

/-- C3 (amended).  The debug ring buffer never holds more than 11
entries (`slice(-10)` keeps at most ten, then one is appended), oldest
dropped first; in particular after 12 messages the first text is
absent and the 12th is present. -/
theorem debug_buffer_amended :
    (∀ (s : SessionState) (evs : List Event),
        (run s evs).debugText.length ≤ max s.debugText.length 11) ∧
    (∀ evs : List Event, (run initialState evs).debugText.length ≤ 11) ∧
    (run initialState (debugMsgs
        ["m1", "m2", "m3", "m4", "m5", "m6", "m7", "m8", "m9", "m10", "m11", "m12"])).debugText
      = [JSVal.str "m2", JSVal.str "m3", JSVal.str "m4", JSVal.str "m5",
         JSVal.str "m6", JSVal.str "m7", JSVal.str "m8", JSVal.str "m9",
         JSVal.str "m10", JSVal.str "m11", JSVal.str "m12"] := by
  refine ⟨run_debugLen, fun evs => ?_, rfl⟩
  have h := run_debugLen initialState evs
  simpa [initialState] using h

/-- C4.  Each `history_update` message appends exactly one entry: after
a sequence of N such messages the history is the initial history
followed by the N items in arrival order (length N from the initial
state), and no step of the event loop — any message, navigation event,
Question-Log click or socket callback — ever mutates, removes or
reorders an existing entry: the previous history is always a prefix of
the new one. -/
theorem history_append_only (s : SessionState) (items : List JSVal) :
    (run s (items.map fun it => Event.msg (historyMsg it))).history
      = s.history ++ items ∧
    (run initialState (items.map fun it => Event.msg (historyMsg it))).history
      = items ∧
    ∀ e, ∃ tail, (step s e).history = s.history ++ tail := by
  refine ⟨run_historyMsgs items s, ?_, fun e => step_history_extends s e⟩
  have h := run_historyMsgs items initialState
  simpa [initialState] using h

/-- C5.  With a non-empty history: Previous (ArrowLeft) from the Live
cursor lands on index `history.length - 1`; Next (ArrowRight) from the
last index returns the cursor to Live; hence Previous followed by Next
starting from Live is a no-op ending at Live — the whole state is
unchanged. -/
theorem prev_next_from_live (s : SessionState) (hne : s.history ≠ []) :
    (s.viewIndex = -1 →
        (handleKeyDown s Key.arrowLeft).viewIndex = (s.history.length : Int) - 1) ∧
    (s.viewIndex = (s.history.length : Int) - 1 →
        (handleKeyDown s Key.arrowRight).viewIndex = -1) ∧
    (s.viewIndex = -1 →
        handleKeyDown (handleKeyDown s Key.arrowLeft) Key.arrowRight = s) := by
  have hlen : s.history.length ≠ 0 := by
    simpa [List.length_eq_zero] using hne
  refine ⟨fun h => ?_, fun h => ?_, fun h => ?_⟩
  · simp [handleKeyDown, hlen, h]
  · have h1 : ¬(s.viewIndex = -1) := by omega
    simp [handleKeyDown, hlen, h1, h]
  · have h1 : handleKeyDown s Key.arrowLeft
        = { s with viewIndex := (s.history.length : Int) - 1 } := by
      simp [handleKeyDown, hlen, h]
    rw [h1]
    have h2 : ¬((s.history.length : Int) - 1 = -1) := by omega
    have h3 : handleKeyDown { s with viewIndex := (s.history.length : Int) - 1 }
        Key.arrowRight = { s with viewIndex := -1 } := by
      simp [handleKeyDown, hlen, h2]
    rw [h3, ← h]

/-- C5 witness: the concrete one-entry Live state. -/
theorem prev_next_from_live_witness :
    sampleLive.history ≠ [] ∧
    (sampleLive.viewIndex = -1 →
        (handleKeyDown sampleLive Key.arrowLeft).viewIndex
          = (sampleLive.history.length : Int) - 1) :=
  ⟨List.cons_ne_nil _ _,
   (prev_next_from_live sampleLive (List.cons_ne_nil _ _)).1⟩

theorem prev_step_index (s : SessionState)
    (hne : 0 < s.history.length) (hidx : 0 ≤ s.viewIndex) :
    (handleKeyDown s Key.arrowLeft).viewIndex = max 0 (s.viewIndex - 1) := by
  have hlen : s.history.length ≠ 0 := by omega
  have h1 : ¬(s.viewIndex = -1) := by omega
  simp [handleKeyDown, hlen, h1]

theorem prevIter_facts (s : SessionState)
    (hne : 0 < s.history.length) (hidx : 0 ≤ s.viewIndex) (n : Nat) :
    0 ≤ ((fun st => handleKeyDown st Key.arrowLeft)^[n] s).viewIndex ∧
    ((fun st => handleKeyDown st Key.arrowLeft)^[n] s).history = s.history := by
  induction n with
  | zero => exact ⟨hidx, rfl⟩
  | succ n ih =>
    obtain ⟨ih1, ih2⟩ := ih
    rw [Function.iterate_succ_apply']
    constructor
    · rw [prev_step_index _ (by rw [ih2]; exact hne) ih1]
      omega
    · rw [handleKeyDown_history, ih2]

/-- C6.  With a non-empty history and the cursor on a historical index,
Previous (ArrowLeft) decrements the index by one clamped at 0 (no
wraparound), so its result stays in `[0, index]`; consequently repeated
Previous applications yield a monotonically non-increasing index
sequence that never goes below 0.  With an empty history both Previous
and Next leave the state unchanged. -/
theorem prev_monotone (s : SessionState)
    (hne : 0 < s.history.length) (hidx : 0 ≤ s.viewIndex) :
    (handleKeyDown s Key.arrowLeft).viewIndex = max 0 (s.viewIndex - 1) ∧
    0 ≤ (handleKeyDown s Key.arrowLeft).viewIndex ∧
    (handleKeyDown s Key.arrowLeft).viewIndex ≤ s.viewIndex ∧
    (∀ n : Nat,
      0 ≤ ((fun st => handleKeyDown st Key.arrowLeft)^[n] s).viewIndex ∧
      ((fun st => handleKeyDown st Key.arrowLeft)^[n + 1] s).viewIndex
        ≤ ((fun st => handleKeyDown st Key.arrowLeft)^[n] s).viewIndex) ∧
    (∀ s2 : SessionState, s2.history = [] →
      handleKeyDown s2 Key.arrowLeft = s2 ∧ handleKeyDown s2 Key.arrowRight = s2) := by
  have hbase := prev_step_index s hne hidx
  refine ⟨hbase, by rw [hbase]; omega, by rw [hbase]; omega, fun n => ?_, fun s2 h2 => ?_⟩
  · obtain ⟨g1, g2⟩ := prevIter_facts s hne hidx n
    refine ⟨g1, ?_⟩
    rw [Function.iterate_succ_apply',
      prev_step_index _ (by rw [g2]; exact hne) g1]
    omega
  · constructor <;> simp [handleKeyDown, h2]

/-- C6 witness: the concrete one-entry state with the cursor on
index 0. -/
theorem prev_monotone_witness :
    0 < sampleNav.history.length ∧ 0 ≤ sampleNav.viewIndex ∧
    (handleKeyDown sampleNav Key.arrowLeft).viewIndex
      = max 0 (sampleNav.viewIndex - 1) :=
  ⟨Nat.one_pos, le_refl 0,
   (prev_monotone sampleNav Nat.one_pos (le_refl 0)).1⟩

/-- C7.  View resolution: with a cursor that is Live or a stored
index (the reachable cursors, see the cursor invariant), the view is
live — showing the live artifact and caption — exactly when the cursor
is `-1` or at-or-past `history.length`; otherwise the stored index is
in bounds, the displayed image and caption come from the history entry
at the cursor, and the position label reads `cursor+1` of
`history.length`. -/
theorem view_resolution (s : SessionState) (h : -1 ≤ s.viewIndex) :
    (s.isLive = true ↔
        s.viewIndex = -1 ∨ (s.history.length : Int) ≤ s.viewIndex) ∧
    (s.isLive = true →
        s.displayImage = s.liveImage ∧ s.displayPrompt = s.livePrompt) ∧
    (s.isLive = false →
        ∃ entry, s.history.get? s.viewIndex.toNat = some entry ∧
          s.displayImage = optChainGet entry "url" ∧
          s.displayPrompt = optChainGet entry "question" ∧
          s.positionLabel = (s.viewIndex + 1, s.history.length)) := by
  have hiff : s.isLive = true ↔
      s.viewIndex = -1 ∨ (s.history.length : Int) ≤ s.viewIndex := by
    simp [SessionState.isLive]
  refine ⟨hiff, fun hl => ?_, fun hl => ?_⟩
  · constructor <;> simp [SessionState.displayImage, SessionState.displayPrompt, hl]
  · have hnl : ¬(s.viewIndex = -1 ∨ (s.history.length : Int) ≤ s.viewIndex) := by
      rw [← hiff]; simp [hl]
    push_neg at hnl
    obtain ⟨h1, h2⟩ := hnl
    have h0 : 0 ≤ s.viewIndex := by omega
    have hb : s.viewIndex.toNat < s.history.length := by omega
    refine ⟨s.history.get ⟨s.viewIndex.toNat, hb⟩, List.get?_eq_get hb, ?_, ?_, rfl⟩
    · have : jsIndexGet s.history s.viewIndex
          = s.history.get ⟨s.viewIndex.toNat, hb⟩ := by
        simp [jsIndexGet, h0, List.getD, List.getElem?_eq_getElem hb]
      simp [SessionState.displayImage, hl, this]
    · have : jsIndexGet s.history s.viewIndex
          = s.history.get ⟨s.viewIndex.toNat, hb⟩ := by
        simp [jsIndexGet, h0, List.getD, List.getElem?_eq_getElem hb]
      simp [SessionState.displayPrompt, hl, this]

/-- C7 witness: the concrete one-entry state with the cursor on
index 0, resolving to History Mode. -/
theorem view_resolution_witness :
    -1 ≤ sampleNav.viewIndex ∧
    (sampleNav.isLive = false →
        ∃ entry, sampleNav.history.get? sampleNav.viewIndex.toNat = some entry ∧
          sampleNav.displayImage = optChainGet entry "url" ∧
          sampleNav.displayPrompt = optChainGet entry "question" ∧
          sampleNav.positionLabel = (sampleNav.viewIndex + 1, sampleNav.history.length)) :=
  ⟨by decide, (view_resolution sampleNav (by decide)).2.2⟩

/-- C9.  A well-formed `metrics` message (its `data.latency` and
`data.cost` fields present and truthy) replaces the stored latency map
and cost snapshot wholesale with the message's values: the resulting
state is the old state with `metrics` and `cost` overwritten by the
payload, independent of the previous snapshot, and the dispatch throws
nothing. -/
theorem metrics_replace (s : SessionState) (lat c : JSVal)
    (hl : truthy lat = true) (hc : truthy c = true) :
    (onmessage s (metricsMsg lat c)).1 = { s with metrics := lat, cost := c } ∧
    (onmessage s (metricsMsg lat c)).2 = none := by
  have h0 : onmessage s (metricsMsg lat c)
      = ({ s with metrics := jsOr lat (.obj []), cost := jsOr c defaultCost }, none) :=
    rfl
  rw [h0]
  simp [jsOr, hl, hc]

/-- C9 witness: a concrete metrics message hitting a state whose prior
snapshot holds a key absent from the message; the stored map becomes
exactly the message's map. -/
theorem metrics_replace_witness :
    truthy sampleLatency = true ∧ truthy sampleCost = true ∧
    (onmessage sampleMetricsState (metricsMsg sampleLatency sampleCost)).1
      = { sampleMetricsState with metrics := sampleLatency, cost := sampleCost } :=
  ⟨rfl, rfl,
   (metrics_replace sampleMetricsState sampleLatency sampleCost rfl rfl).1⟩

theorem handleKeyDown_other (s : SessionState) :
    handleKeyDown s Key.other = s := by
  unfold handleKeyDown
  split
  all_goals rfl

theorem handleKeyDown_viewIndex_left (s : SessionState)
    (hlen : s.history.length ≠ 0) :
    (handleKeyDown s Key.arrowLeft).viewIndex =
      if s.viewIndex = -1 then (s.history.length : Int) - 1
      else max 0 (s.viewIndex - 1) := by
  simp [handleKeyDown, hlen]

theorem handleKeyDown_viewIndex_right (s : SessionState)
    (hlen : s.history.length ≠ 0) :
    (handleKeyDown s Key.arrowRight).viewIndex =
      if s.viewIndex = -1 then -1
      else if (s.history.length : Int) - 1 ≤ s.viewIndex then -1
      else s.viewIndex + 1 := by
  simp [handleKeyDown, hlen]

theorem handleKeyDown_cursorOK (s : SessionState) (k : Key) (h : cursorOK s) :
    cursorOK (handleKeyDown s k) := by
  by_cases hlen : s.history.length = 0
  · have : handleKeyDown s k = s := by
      unfold handleKeyDown
      rw [if_pos hlen]
    rw [this]
    exact h
  · cases k with
    | arrowLeft =>
      unfold cursorOK at h ⊢
      rw [handleKeyDown_viewIndex_left s hlen, handleKeyDown_history]
      split
      · omega
      · omega
    | arrowRight =>
      unfold cursorOK at h ⊢
      rw [handleKeyDown_viewIndex_right s hlen, handleKeyDown_history]
      split
      · omega
      · split
        · omega
        · omega
    | other =>
      rw [handleKeyDown_other]
      exact h

theorem step_cursorOK (s : SessionState) (e : Event) (h : cursorOK s) :
    cursorOK (step s e) := by
  cases e with
  | msg ev =>
    cases ev with
    | none => exact h
    | some data =>
      show cursorOK (dispatchMsg s data).1
      unfold cursorOK at h ⊢
      obtain ⟨tail, ht⟩ := dispatchMsg_history s data
      rw [dispatchMsg_viewIndex, ht, List.length_append]
      push_cast
      omega
  | key k => exact handleKeyDown_cursorOK s k h
  | clickEntry i =>
    simp only [step]
    split
    · rename_i hi
      right
      constructor
      · positivity
      · simpa using hi
    · exact h
  | sockOpen => exact h
  | sockError => exact h
  | sockClose => exact h

theorem run_cursorOK (s : SessionState) (evs : List Event) (h : cursorOK s) :
    cursorOK (run s evs) := by
  induction evs generalizing s with
  | nil => exact h
  | cons e es ih => exact ih (step s e) (step_cursorOK s e h)

/-- C10.  In every reachable state the view cursor is the Live sentinel
`-1` or an index in `[0, history.length)`: the property is preserved by
every event-loop step (message, navigation key, Question-Log click,
socket callback), no step shortens the history, and every state reached
from the initial state satisfies it. -/
theorem cursor_valid_invariant (s : SessionState) (e : Event) (h : cursorOK s) :
    cursorOK (step s e) ∧
    s.history.length ≤ (step s e).history.length ∧
    ∀ evs : List Event, cursorOK (run initialState evs) := by
  refine ⟨step_cursorOK s e h, ?_, fun evs => run_cursorOK initialState evs (Or.inl rfl)⟩
  obtain ⟨tail, ht⟩ := step_history_extends s e
  rw [ht]
  simp

/-- C10 witness: a concrete in-bounds cursor state stepped by an
ArrowRight navigation event. -/
theorem cursor_valid_invariant_witness :
    cursorOK sampleNav ∧ cursorOK (step sampleNav (Event.key Key.arrowRight)) :=
  ⟨Or.inr ⟨by decide, by decide⟩,
   (cursor_valid_invariant sampleNav (Event.key Key.arrowRight)
     (Or.inr ⟨by decide, by decide⟩)).1⟩

/-- C8 (counterexample).  The claim says durable storage holds all
eight configuration items (three credentials, three model selections,
the min-display-seconds integer, the session label) and that all are
loaded at process start.  Saving the concrete configuration from empty
storage writes exactly the three credential keys — the model
selections, the display time and the label `"MyLabel"` are nowhere in
the result — and at startup the model selection and session label
ignore whatever storage holds: they are literals. -/
theorem persisted_config_counterexample :
    handleSaveSettings cfgSample []
      = [("openai_api_key", "oak"), ("openrouter_api_key", "rk"),
         ("gemini_api_key", "gk")] ∧
    (initConfig [("session_label", "PersistedLabel"), ("audio_model", "persisted_audio")]
        "01-01-2026").sessionName = "Session_01-01-2026" ∧
    (initConfig [("session_label", "PersistedLabel"), ("audio_model", "persisted_audio")]
        "01-01-2026").audioModel = "local_whisper" :=
  ⟨rfl, rfl, rfl⟩

theorem storeGet_setItem_self (st : Storage) (k v : String) :
    storeGet (setItem st k v) k = some v := by
  simp [setItem, storeGet]

theorem storeGet_filter_ne (st : Storage) (k q : String) (h : q ≠ k) :
    storeGet (st.filter fun p => decide (p.1 ≠ k)) q = storeGet st q := by
  induction st with
  | nil => rfl
  | cons p rest ih =>
    obtain ⟨a, b⟩ := p
    rw [List.filter_cons]
    by_cases hp : a = k
    · have hdec : (decide ((a, b).1 ≠ k)) = false := by simp [hp]
      have hq : ¬(a = q) := by
        intro hh
        exact h (by rw [← hh, hp])
      rw [hdec, if_neg Bool.false_ne_true, ih, storeGet, if_neg hq]
    · have hdec : (decide ((a, b).1 ≠ k)) = true := by simp [hp]
      rw [hdec, if_pos rfl, storeGet, storeGet, ih]

theorem storeGet_setItem_ne (st : Storage) (k v q : String) (h : q ≠ k) :
    storeGet (setItem st k v) q = storeGet st q := by
  have hk : ¬(k = q) := fun hh => h hh.symm
  unfold setItem
  rw [storeGet, if_neg hk, storeGet_filter_ne st k q h]

/-- C8 (amended).  Durable local storage persists exactly the three
credential strings, under the fixed keys `gemini_api_key`,
`openrouter_api_key` and `openai_api_key`: `handleSaveSettings` (the
save-settings operation, the only storage writer in the component)
stores the three credentials and touches no other key, and the startup
load reads exactly those three keys with `""` fallbacks while the model
selections, the min-display-time and the session label are initialized
from literals, not from storage. -/
theorem persisted_config_amended (cfg : Config) (st : Storage) (d k : String)
    (hk : k ≠ "gemini_api_key" ∧ k ≠ "openrouter_api_key" ∧ k ≠ "openai_api_key") :
    storeGet (handleSaveSettings cfg st) "gemini_api_key" = some cfg.geminiKey ∧
    storeGet (handleSaveSettings cfg st) "openrouter_api_key" = some cfg.openRouterKey ∧
    storeGet (handleSaveSettings cfg st) "openai_api_key" = some cfg.openaiKey ∧
    storeGet (handleSaveSettings cfg st) k = storeGet st k ∧
    initConfig st d =
      { geminiKey := (storeGet st "gemini_api_key").getD ""
        openRouterKey := (storeGet st "openrouter_api_key").getD ""
        openaiKey := (storeGet st "openai_api_key").getD ""
        audioModel := "local_whisper"
        questionModel := "gemini-2.5-flash"
        imageModel := "google/gemini-2.5-flash-image"
        minDisplayTime := 6
        sessionName := "Session_" ++ d } := by
  obtain ⟨h1, h2, h3⟩ := hk
  unfold handleSaveSettings
  refine ⟨?_, ?_, ?_, ?_, rfl⟩
  · rw [storeGet_setItem_ne _ _ _ _ (by decide),
      storeGet_setItem_ne _ _ _ _ (by decide), storeGet_setItem_self]
  · rw [storeGet_setItem_ne _ _ _ _ (by decide), storeGet_setItem_self]
  · rw [storeGet_setItem_self]
  · rw [storeGet_setItem_ne _ _ _ _ h3, storeGet_setItem_ne _ _ _ _ h2,
      storeGet_setItem_ne _ _ _ _ h1]

/-- C8 witness: saving the concrete configuration over a storage with
an unrelated key leaves that key intact and stores the credentials. -/
theorem persisted_config_amended_witness :
    ("unrelated_key" ≠ "gemini_api_key" ∧ "unrelated_key" ≠ "openrouter_api_key" ∧
        "unrelated_key" ≠ "openai_api_key") ∧
    (storeGet (handleSaveSettings cfgSample [("unrelated_key", "v")]) "gemini_api_key"
        = some cfgSample.geminiKey ∧
      storeGet (handleSaveSettings cfgSample [("unrelated_key", "v")]) "openrouter_api_key"
        = some cfgSample.openRouterKey ∧
      storeGet (handleSaveSettings cfgSample [("unrelated_key", "v")]) "openai_api_key"
        = some cfgSample.openaiKey ∧
      storeGet (handleSaveSettings cfgSample [("unrelated_key", "v")]) "unrelated_key"
        = storeGet [("unrelated_key", "v")] "unrelated_key" ∧
      initConfig [("unrelated_key", "v")] "01-01-2026" =
        { geminiKey := (storeGet [("unrelated_key", "v")] "gemini_api_key").getD ""
          openRouterKey := (storeGet [("unrelated_key", "v")] "openrouter_api_key").getD ""
          openaiKey := (storeGet [("unrelated_key", "v")] "openai_api_key").getD ""
          audioModel := "local_whisper"
          questionModel := "gemini-2.5-flash"
          imageModel := "google/gemini-2.5-flash-image"
          minDisplayTime := 6
          sessionName := "Session_" ++ "01-01-2026" }) :=
  ⟨⟨by decide, by decide, by decide⟩,
   persisted_config_amended cfgSample [("unrelated_key", "v")] "01-01-2026"
     "unrelated_key" ⟨by decide, by decide, by decide⟩⟩
